import Mathlib

/-!
Shallow embedding of `src/pymod.c` from the precastro repository: a CPython
extension module exposing `novas_astro_star`, a thin adapter around the
external NOVAS routine `astro_star`, plus the repository's degenerate
passthrough variant `thingie`.

The adapter performs no arithmetic on its `double` values — it only marshals
them across the language boundary — so C doubles are modelled as rationals
(`Rat`).  The external routine `astro_star` is opaque to the adapter; it is
modelled as a function parameter.  To express claims about which external
calls occur (and with which arguments), the adapter additionally returns the
list of external-call records it made.
-/

set_option autoImplicit false

namespace Precastro

/-- Size of the `starname` char array of NOVAS's `cat_entry`.
Modelled from the spec: `novas.h` is not in the repository; NOVAS-C defines
`SIZE_OF_OBJ_NAME` for the object-name field.  The exact size is irrelevant
to every claim (only that the bytes are zero matters). -/
def SIZE_OF_OBJ_NAME : Nat := 51

/-- Size of the `catalog` char array of NOVAS's `cat_entry`.
Modelled from the spec: `novas.h` is not in the repository; NOVAS-C defines
`SIZE_OF_CAT_NAME` for the catalog-designator field. -/
def SIZE_OF_CAT_NAME : Nat := 4

/-- The NOVAS `cat_entry` record (`novas.h`): star catalog parameters.
Char arrays are modelled as lists of byte values. -/
structure cat_entry where
  starname : List Nat
  catalog : List Nat
  starnumber : Int
  ra : Rat
  dec : Rat
  promora : Rat
  promodec : Rat
  parallax : Rat
  radialvelocity : Rat
deriving Repr, DecidableEq

/-- The C initializer `cat_entry star = {{0}};`: every member, including both
char arrays and the star number, is zero-initialized (C11 6.7.9). -/
def cat_entry.zeroed : cat_entry :=
  { starname := List.replicate SIZE_OF_OBJ_NAME 0
  , catalog := List.replicate SIZE_OF_CAT_NAME 0
  , starnumber := 0
  , ra := 0, dec := 0, promora := 0, promodec := 0
  , parallax := 0, radialvelocity := 0 }

/-- A Python-level argument as seen by the `"d"` converter of
`PyArg_ParseTuple`: either a value the converter accepts as a double, or any
object it rejects. -/
inductive PyVal where
  | num (x : Rat)
  | nonnum
deriving Repr, DecidableEq

/-- The `"d"` converter of `PyArg_ParseTuple`: converts one argument to a
C double, failing on a non-numeric object. -/
def getDouble : PyVal → Option Rat
  | PyVal.num x => some x
  | PyVal.nonnum => none

/-- Convert each positional argument with the `"d"` converter, failing if any
conversion fails. -/
def parseDoubles : List PyVal → Option (List Rat)
  | [] => some []
  | a :: rest =>
      match getDouble a, parseDoubles rest with
      | some x, some xs => some (x :: xs)
      | _, _ => none

/-- `PyArg_ParseTuple (args, "ddddddd", ...)`: succeeds exactly when there are
seven positional arguments and each converts as a double, producing the seven
C doubles in order. -/
def parse7d (args : List PyVal) :
    Option (Rat × Rat × Rat × Rat × Rat × Rat × Rat) :=
  match parseDoubles args with
  | some [x0, x1, x2, x3, x4, x5, x6] => some (x0, x1, x2, x3, x4, x5, x6)
  | _ => none

/-- Behaviour of the external NOVAS routine `astro_star`: from the time value,
the catalog entry and the accuracy selector it produces a status code (C
`short int`, modelled as `Int`) and the two output doubles written through
`*ra` and `*dec`. -/
def AstroStar : Type :=
  Rat → cat_entry → Int → Int × Rat × Rat

/-- A Python exception-kind object as created by `PyErr_NewException`:
identity (`oid`) plus its qualified name. -/
structure ExcObject where
  oid : Nat
  qualname : String
deriving Repr, DecidableEq

/-- Outcome of a call into the adapter, as observed by the Python caller. -/
inductive Outcome where
  /-- `Py_BuildValue ("dd", rares, decres)`: a two-element numeric tuple. -/
  | ok (ra dec : Rat)
  /-- `PyErr_Format (exc, msg)` followed by returning NULL: the exception
  kind `exc` is raised with message `msg`. -/
  | raised (exc : ExcObject) (msg : String)
  /-- NULL return with the argument-shape exception already set by
  `PyArg_ParseTuple` itself. -/
  | argError
deriving Repr, DecidableEq

/-- Record of one invocation of the external routine: the arguments the
adapter passed to `astro_star`. -/
structure AstroCallRec where
  jd_tt : Rat
  star : cat_entry
  accuracy : Int
deriving Repr, DecidableEq

/-- The `cat_entry` as it stands when `astro_star` is invoked: `{{0}}`
zero-initialization with the six trailing parsed doubles stored into their
fields by `PyArg_ParseTuple`. -/
def mkStar (ra dec promora promodec parallax radialvelocity : Rat) :
    cat_entry :=
  { cat_entry.zeroed with
      ra := ra, dec := dec, promora := promora, promodec := promodec
    , parallax := parallax, radialvelocity := radialvelocity }

/-- `py_novas_astro_star` from `src/pymod.c`: parse seven doubles, fill the
zero-initialized `cat_entry`, call `astro_star (jdtt, &star, 0, &rares,
&decres)`, and either raise `novas_err` with message
`"NOVAS error code %d"` on a nonzero status or return the tuple
`(rares, decres)`.  Alongside the Python-visible outcome it returns the list
of external calls performed. -/
def py_novas_astro_star (novas_err : ExcObject) (astro : AstroStar)
    (args : List PyVal) : Outcome × List AstroCallRec :=
  match parse7d args with
  | none => (Outcome.argError, [])
  | some (jdtt, ra, dec, promora, promodec, parallax, radialvelocity) =>
      let star := mkStar ra dec promora promodec parallax radialvelocity
      let r := astro jdtt star 0
      let err := r.1
      if err ≠ 0 then
        (Outcome.raised novas_err ("NOVAS error code " ++ toString err),
         [⟨jdtt, star, 0⟩])
      else
        (Outcome.ok r.2.1 r.2.2, [⟨jdtt, star, 0⟩])

/-- The module-level state of `precastro` after initialization: the static
`novas_err` global and the module dictionary (attribute name to object). -/
structure ModuleState where
  novas_err : ExcObject
  dict : List (String × ExcObject)
deriving Repr, DecidableEq

/-- `PyErr_NewException`: creates a fresh exception kind with the given
qualified name (identity chosen by the allocator). -/
def PyErr_NewException (qualname : String) (oid : Nat) : ExcObject :=
  { oid := oid, qualname := qualname }

/-- `initprecastro` from `src/pymod.c`: create the `precastro.NovasError`
exception kind, store it in the static `novas_err`, and attach it to the
module dictionary under the attribute name `"NovasError"`. -/
def initprecastro : ModuleState :=
  let e := PyErr_NewException "precastro.NovasError" 0
  { novas_err := e, dict := [("NovasError", e)] }

/-- One call into the module: the caller's argument list, together with the
behaviour the external routine exhibits during that call. -/
structure Call where
  astro : AstroStar
  args : List PyVal

/-- Execute one call of `novas_astro_star` against the module state: the
adapter only reads `novas_err` and writes no adapter-owned state, so the
state after the call is the state before it. -/
def runCall (st : ModuleState) (c : Call) : ModuleState × Outcome :=
  (st, (py_novas_astro_star st.novas_err c.astro c.args).1)

/-- Execute a sequence of calls, threading the module state. -/
def runCalls (st : ModuleState) : List Call → ModuleState × List Outcome
  | [] => (st, [])
  | c :: rest =>
      let p := runCall st c
      let q := runCalls p.1 rest
      (q.1, p.2 :: q.2)

/-- Modelled from the spec: the NOVAS accuracy selector value meaning "full
accuracy".  The spec states the adapter always passes the full-accuracy
setting; `novas.h` (not in the repository) has 0 select full accuracy and 1
reduced accuracy, and `src/pymod.c` passes the literal `0`. -/
def full_accuracy : Int := 0

/-- A Python-level argument as seen by the `"i"` converter of
`PyArg_ParseTuple`: either an integer value, or any object the converter
rejects. -/
inductive PyIntArg where
  | int (i : Int)
  | nonint
deriving Repr, DecidableEq

/-- Modelled from the spec: the lower bound of the host's native integer
range (the `"i"` converter targets a C `int`, conventionally 32-bit). -/
def INT_MIN : Int := -(2 ^ 31)

/-- Modelled from the spec: the upper bound of the host's native integer
range (the `"i"` converter targets a C `int`, conventionally 32-bit). -/
def INT_MAX : Int := 2 ^ 31 - 1

/-- `PyArg_ParseTuple (args, "i", ...)`: succeeds exactly when there is one
positional argument holding an integer within the host's native integer
range. -/
def parse1i (args : List PyIntArg) : Option Int :=
  match args with
  | [PyIntArg.int i] =>
      if INT_MIN ≤ i ∧ i ≤ INT_MAX then some i else none
  | _ => none

/-- Outcome of a call to the degenerate passthrough variant. -/
inductive ThingieOutcome where
  | ok (i : Int)
  | argError
deriving Repr, DecidableEq

/-- Modelled from the spec: the degenerate passthrough variant `thingie`
(its source file is not under `src/`; only `src/pymod.c` is).  It accepts a
single native-range integer argument and returns it unchanged, using the
same parse-then-build adapter pattern as `py_novas_astro_star`. -/
def py_thingie (args : List PyIntArg) : ThingieOutcome :=
  match parse1i args with
  | some i => ThingieOutcome.ok i
  | none => ThingieOutcome.argError

/-- A concrete external behaviour returning status 0 and echoing the entry's
`ra` and `dec` fields, the former shifted by the time value. -/
def astroOkW : AstroStar :=
  fun jdtt star _ => (0, star.ra + jdtt, star.dec)

/-- A concrete external behaviour always failing with status code 3. -/
def astroErrW : AstroStar :=
  fun _ _ _ => (3, 0, 0)

/-- Seven concrete numeric arguments. -/
def args7W : List PyVal :=
  [PyVal.num 1, PyVal.num 2, PyVal.num 3, PyVal.num 4,
   PyVal.num 5, PyVal.num 6, PyVal.num 7]

/-- A concrete call whose external behaviour fails with status code 3. -/
def callErrW : Call :=
  { astro := astroErrW, args := args7W }

/- ### Helper lemmas about argument parsing and the adapter -/

theorem parseDoubles_length {args : List PyVal} {l : List Rat}
    (h : parseDoubles args = some l) : l.length = args.length := by
  induction args generalizing l with
  | nil =>
      simp only [parseDoubles] at h
      cases h
      rfl
  | cons a rest ih =>
      simp only [parseDoubles] at h
      cases hx : getDouble a with
      | none => rw [hx] at h; cases h
      | some x =>
          rw [hx] at h
          cases hxs : parseDoubles rest with
          | none => rw [hxs] at h; cases h
          | some xs =>
              rw [hxs] at h
              cases h
              simp [ih hxs]

theorem parseDoubles_of_nonnum {args : List PyVal}
    (h : PyVal.nonnum ∈ args) : parseDoubles args = none := by
  induction args with
  | nil => cases h
  | cons a rest ih =>
      cases h with
      | head => simp [parseDoubles, getDouble]
      | tail _ hm =>
          cases a with
          | num x => simp [parseDoubles, getDouble, ih hm]
          | nonnum => simp [parseDoubles, getDouble]

theorem parse7d_some_shape {args : List PyVal}
    {t : Rat × Rat × Rat × Rat × Rat × Rat × Rat}
    (h : parse7d args = some t) :
    args.length = 7 ∧ PyVal.nonnum ∉ args := by
  unfold parse7d at h
  split at h
  · rename_i x0 x1 x2 x3 x4 x5 x6 heq
    have hlen := parseDoubles_length heq
    constructor
    · rw [← hlen]; rfl
    · intro hm
      rw [parseDoubles_of_nonnum hm] at heq
      cases heq
  · cases h

/-- Characterization of the external calls the adapter performs: every
external invocation happens after a successful parse, on the star entry
built from the six trailing parsed arguments, with accuracy selector 0. -/
theorem py_novas_astro_star_calls (e : ExcObject) (astro : AstroStar)
    (args : List PyVal) :
    ∀ c ∈ (py_novas_astro_star e astro args).2,
      ∃ jdtt ra dec pra pdec plx rv,
        parse7d args = some (jdtt, ra, dec, pra, pdec, plx, rv) ∧
        c = ⟨jdtt, mkStar ra dec pra pdec plx rv, 0⟩ := by
  intro c hc
  unfold py_novas_astro_star at hc
  cases hp : parse7d args with
  | none => rw [hp] at hc; cases hc
  | some t =>
      obtain ⟨jdtt, ra, dec, pra, pdec, plx, rv⟩ := t
      rw [hp] at hc
      simp only at hc
      refine ⟨jdtt, ra, dec, pra, pdec, plx, rv, rfl, ?_⟩
      by_cases hz : (astro jdtt (mkStar ra dec pra pdec plx rv) 0).1 ≠ 0
      · simp only [if_pos hz, List.mem_singleton] at hc
        exact hc
      · simp only [if_neg hz, List.mem_singleton] at hc
        exact hc

/-- Whenever the adapter's outcome is a raised exception, the exception kind
is exactly the `novas_err` handle it was given. -/
theorem py_novas_astro_star_raised_exc (e : ExcObject) (astro : AstroStar)
    (args : List PyVal) (x : ExcObject) (m : String)
    (h : (py_novas_astro_star e astro args).1 = Outcome.raised x m) :
    x = e := by
  unfold py_novas_astro_star at h
  cases hp : parse7d args with
  | none => rw [hp] at h; cases h
  | some t =>
      obtain ⟨jdtt, ra, dec, pra, pdec, plx, rv⟩ := t
      rw [hp] at h
      simp only at h
      by_cases hz : (astro jdtt (mkStar ra dec pra pdec plx rv) 0).1 ≠ 0
      · simp only [if_pos hz] at h
        cases h
        rfl
      · simp only [if_neg hz] at h
        cases h

/-- Executing any call sequence leaves the module state unchanged, and every
raised outcome carries the state's `novas_err` handle. -/
theorem runCalls_state_and_raised (st : ModuleState) (calls : List Call) :
    (runCalls st calls).1 = st ∧
    ∀ o ∈ (runCalls st calls).2, ∀ x m,
      o = Outcome.raised x m → x = st.novas_err := by
  induction calls with
  | nil =>
      refine ⟨rfl, ?_⟩
      intro o ho
      cases ho
  | cons c rest ih =>
      refine ⟨ih.1, ?_⟩
      intro o ho x m hr
      cases ho with
      | head =>
          exact py_novas_astro_star_raised_exc st.novas_err c.astro c.args x m
            hr
      | tail _ hm => exact ih.2 o hm x m hr

/- ### Claim C1: success path returns the routine's two outputs unmodified -/

/-- Claim C1: for every call to `novas_astro_star` with seven numeric
arguments for which `astro_star` returns status code zero, the adapter
returns exactly the two-element tuple of the routine's two output scalars,
apparent right ascension first, apparent declination second, unmodified. -/
theorem novas_astro_star_success (e : ExcObject) (astro : AstroStar)
    (args : List PyVal) (jdtt ra dec pra pdec plx rv : Rat)
    (hp : parse7d args = some (jdtt, ra, dec, pra, pdec, plx, rv))
    (hz : (astro jdtt (mkStar ra dec pra pdec plx rv) 0).1 = 0) :
    (py_novas_astro_star e astro args).1 =
      Outcome.ok (astro jdtt (mkStar ra dec pra pdec plx rv) 0).2.1
        (astro jdtt (mkStar ra dec pra pdec plx rv) 0).2.2 := by
  unfold py_novas_astro_star
  rw [hp]
  simp [hz]

theorem novas_astro_star_success_witness :
    (py_novas_astro_star (ExcObject.mk 0 "precastro.NovasError") astroOkW
        args7W).1 =
      Outcome.ok (astroOkW 1 (mkStar 2 3 4 5 6 7) 0).2.1
        (astroOkW 1 (mkStar 2 3 4 5 6 7) 0).2.2 :=
  novas_astro_star_success (ExcObject.mk 0 "precastro.NovasError") astroOkW
    args7W 1 2 3 4 5 6 7 rfl rfl

/- ### Claim C2: failure path raises NovasError with the literal code -/

/-- Claim C2: for every call to `novas_astro_star` for which `astro_star`
returns a nonzero status code, the adapter returns no tuple and instead
raises the shared error kind with message exactly `NOVAS error code N`,
where `N` is the literal status code rendered as a decimal integer. -/
theorem novas_astro_star_error_message (e : ExcObject) (astro : AstroStar)
    (args : List PyVal) (jdtt ra dec pra pdec plx rv : Rat)
    (hp : parse7d args = some (jdtt, ra, dec, pra, pdec, plx, rv))
    (hn : (astro jdtt (mkStar ra dec pra pdec plx rv) 0).1 ≠ 0) :
    (py_novas_astro_star e astro args).1 =
      Outcome.raised e
        ("NOVAS error code " ++
          toString (astro jdtt (mkStar ra dec pra pdec plx rv) 0).1) := by
  unfold py_novas_astro_star
  rw [hp]
  simp [hn]

theorem novas_astro_star_error_message_witness :
    (py_novas_astro_star (ExcObject.mk 0 "precastro.NovasError") astroErrW
        args7W).1 =
      Outcome.raised (ExcObject.mk 0 "precastro.NovasError")
        ("NOVAS error code " ++
          toString (astroErrW 1 (mkStar 2 3 4 5 6 7) 0).1) :=
  novas_astro_star_error_message (ExcObject.mk 0 "precastro.NovasError")
    astroErrW args7W 1 2 3 4 5 6 7 rfl (by decide)

/- ### Claim C3: malformed argument lists never reach the external routine -/

/-- Claim C3: calling `novas_astro_star` with fewer than seven arguments,
more than seven arguments, or any non-numeric argument raises the host
runtime's argument-shape error, and `astro_star` is never invoked (the
external-call record list is empty), whatever the external behaviour would
have been. -/
theorem novas_astro_star_bad_args (e : ExcObject) (astro : AstroStar)
    (args : List PyVal)
    (h : args.length ≠ 7 ∨ PyVal.nonnum ∈ args) :
    py_novas_astro_star e astro args = (Outcome.argError, []) := by
  have hp : parse7d args = none := by
    cases hq : parse7d args with
    | none => rfl
    | some t =>
        obtain ⟨h7, hnn⟩ := parse7d_some_shape hq
        cases h with
        | inl hl => exact absurd h7 hl
        | inr hm => exact absurd hm hnn
  unfold py_novas_astro_star
  rw [hp]

theorem novas_astro_star_bad_args_witness :
    ([PyVal.num 1, PyVal.nonnum].length ≠ 7 ∨
        PyVal.nonnum ∈ [PyVal.num 1, PyVal.nonnum]) ∧
      py_novas_astro_star (ExcObject.mk 0 "precastro.NovasError") astroOkW
        [PyVal.num 1, PyVal.nonnum] = (Outcome.argError, []) :=
  ⟨Or.inl (by decide),
   novas_astro_star_bad_args (ExcObject.mk 0 "precastro.NovasError") astroOkW
     [PyVal.num 1, PyVal.nonnum] (Or.inl (by decide))⟩

/- ### Claim C4: every call either fully succeeds or fully fails -/

/-- Claim C4: every call to `novas_astro_star` has exactly one of two
outcomes: it fully succeeds with a complete two-element tuple, or it fully
fails by raising (either the argument-shape error or the NOVAS error); there
is no other path. -/
theorem novas_astro_star_total_outcome (e : ExcObject) (astro : AstroStar)
    (args : List PyVal) :
    ((∃ a b, (py_novas_astro_star e astro args).1 = Outcome.ok a b) ∧
      ¬((py_novas_astro_star e astro args).1 = Outcome.argError ∨
        ∃ x m, (py_novas_astro_star e astro args).1 = Outcome.raised x m)) ∨
    (¬(∃ a b, (py_novas_astro_star e astro args).1 = Outcome.ok a b) ∧
      ((py_novas_astro_star e astro args).1 = Outcome.argError ∨
        ∃ x m, (py_novas_astro_star e astro args).1 = Outcome.raised x m)) := by
  cases ho : (py_novas_astro_star e astro args).1 with
  | ok a b =>
      exact Or.inl ⟨⟨a, b, rfl⟩, by simp⟩
  | raised x m =>
      exact Or.inr ⟨by simp, Or.inr ⟨x, m, rfl⟩⟩
  | argError =>
      exact Or.inr ⟨by simp, Or.inl rfl⟩

/- ### Claim C5: the accuracy selector is fixed to full accuracy -/

/-- Claim C5: on every invocation, the Star Entry passed to the external
routine is built from the six trailing parsed arguments (the time value is
passed separately), and the accuracy/mode selector passed is always the
full-accuracy setting, regardless of the caller's arguments. -/
theorem novas_astro_star_fixed_accuracy (e : ExcObject) (astro : AstroStar)
    (args : List PyVal) :
    ∀ c ∈ (py_novas_astro_star e astro args).2,
      c.accuracy = full_accuracy ∧
      ∃ jdtt ra dec pra pdec plx rv,
        parse7d args = some (jdtt, ra, dec, pra, pdec, plx, rv) ∧
        c.jd_tt = jdtt ∧ c.star = mkStar ra dec pra pdec plx rv := by
  intro c hc
  obtain ⟨jdtt, ra, dec, pra, pdec, plx, rv, hp, hcv⟩ :=
    py_novas_astro_star_calls e astro args c hc
  subst hcv
  exact ⟨rfl, jdtt, ra, dec, pra, pdec, plx, rv, hp, rfl, rfl⟩

theorem novas_astro_star_fixed_accuracy_witness :
    (AstroCallRec.mk 1 (mkStar 2 3 4 5 6 7) 0).accuracy = full_accuracy ∧
    ∃ jdtt ra dec pra pdec plx rv,
      parse7d args7W = some (jdtt, ra, dec, pra, pdec, plx, rv) ∧
      (AstroCallRec.mk 1 (mkStar 2 3 4 5 6 7) 0).jd_tt = jdtt ∧
      (AstroCallRec.mk 1 (mkStar 2 3 4 5 6 7) 0).star =
        mkStar ra dec pra pdec plx rv :=
  novas_astro_star_fixed_accuracy (ExcObject.mk 0 "precastro.NovasError")
    astroOkW args7W (AstroCallRec.mk 1 (mkStar 2 3 4 5 6 7) 0)
    (List.Mem.head _)

/- ### Claim C6: initialization attaches precastro.NovasError -/

/-- Claim C6: module initialization creates exactly one exception kind, with
qualified name `precastro.NovasError`, and attaches it to the module
namespace under the attribute name `NovasError`: immediately after load the
module dictionary consists of exactly that one binding. -/
theorem initprecastro_attaches_NovasError :
    initprecastro.dict = [("NovasError", initprecastro.novas_err)] ∧
    initprecastro.novas_err.qualname = "precastro.NovasError" :=
  ⟨rfl, rfl⟩

/- ### Claim C7: the raised error kind is identity-stable -/

/-- Claim C7: across any sequence of calls made after module initialization,
every raised NOVAS error carries the identical exception-kind object
constructed once by `initprecastro`; no failing call constructs a new
kind. -/
theorem novas_err_identity_stable (calls : List Call) (o : Outcome)
    (ho : o ∈ (runCalls initprecastro calls).2) (x : ExcObject) (m : String)
    (hr : o = Outcome.raised x m) :
    x = initprecastro.novas_err :=
  (runCalls_state_and_raised initprecastro calls).2 o ho x m hr

theorem novas_err_identity_stable_witness :
    ExcObject.mk 0 "precastro.NovasError" = initprecastro.novas_err :=
  novas_err_identity_stable [callErrW, callErrW]
    (Outcome.raised (ExcObject.mk 0 "precastro.NovasError")
      ("NOVAS error code " ++ toString (3 : Int)))
    (List.Mem.head _) (ExcObject.mk 0 "precastro.NovasError")
    ("NOVAS error code " ++ toString (3 : Int)) rfl

/- ### Claim C8: calls have no side effects on adapter state -/

/-- Claim C8: a call to `novas_astro_star` modifies no adapter-owned state
(the module state after the call is the state before it), and its outcome
depends only on its own arguments, the external behaviour, and the read-only
`novas_err` handle fixed at initialization. -/
theorem novas_astro_star_frame (st : ModuleState) (c : Call) :
    (runCall st c).1 = st ∧
    ∀ st' : ModuleState, st'.novas_err = st.novas_err →
      (runCall st' c).2 = (runCall st c).2 := by
  refine ⟨rfl, ?_⟩
  intro st' h
  simp only [runCall, h]

theorem novas_astro_star_frame_witness :
    (runCall initprecastro callErrW).1 = initprecastro ∧
    (runCall (ModuleState.mk initprecastro.novas_err []) callErrW).2 =
      (runCall initprecastro callErrW).2 :=
  ⟨(novas_astro_star_frame initprecastro callErrW).1,
   (novas_astro_star_frame initprecastro callErrW).2
     (ModuleState.mk initprecastro.novas_err []) rfl⟩

/- ### Claim C9: the degenerate passthrough variant is the identity -/

/-- Claim C9: for every integer within the host's native integer range,
calling the passthrough variant `thingie` with that single integer argument
returns exactly that integer unchanged. -/
theorem thingie_passthrough (i : Int)
    (h : INT_MIN ≤ i ∧ i ≤ INT_MAX) :
    py_thingie [PyIntArg.int i] = ThingieOutcome.ok i := by
  have hp : parse1i [PyIntArg.int i] = some i := by
    show (if INT_MIN ≤ i ∧ i ≤ INT_MAX then some i else none) = some i
    rw [if_pos h]
  unfold py_thingie
  rw [hp]

theorem thingie_passthrough_witness :
    py_thingie [PyIntArg.int 42] = ThingieOutcome.ok 42 :=
  thingie_passthrough 42 (by decide)

/- ### Claim C10: unspecified star-entry fields are zero at invocation -/

/-- Claim C10: whenever the external routine is invoked, every field of the
Star Entry other than the six filled from the arguments — in particular the
star name, catalog designator and star number — is zero-initialized, so the
routine never observes indeterminate values. -/
theorem star_entry_zero_fields (e : ExcObject) (astro : AstroStar)
    (args : List PyVal) :
    ∀ c ∈ (py_novas_astro_star e astro args).2,
      c.star.starname = List.replicate SIZE_OF_OBJ_NAME 0 ∧
      c.star.catalog = List.replicate SIZE_OF_CAT_NAME 0 ∧
      c.star.starnumber = 0 := by
  intro c hc
  obtain ⟨jdtt, ra, dec, pra, pdec, plx, rv, hp, hcv⟩ :=
    py_novas_astro_star_calls e astro args c hc
  subst hcv
  exact ⟨rfl, rfl, rfl⟩

theorem star_entry_zero_fields_witness :
    (AstroCallRec.mk 1 (mkStar 2 3 4 5 6 7) 0).star.starname =
        List.replicate SIZE_OF_OBJ_NAME 0 ∧
      (AstroCallRec.mk 1 (mkStar 2 3 4 5 6 7) 0).star.catalog =
        List.replicate SIZE_OF_CAT_NAME 0 ∧
      (AstroCallRec.mk 1 (mkStar 2 3 4 5 6 7) 0).star.starnumber = 0 :=
  star_entry_zero_fields (ExcObject.mk 0 "precastro.NovasError") astroOkW
    args7W (AstroCallRec.mk 1 (mkStar 2 3 4 5 6 7) 0) (List.Mem.head _)

end Precastro
